import Mathlib

/-!
A verification development for the relay firmware's tag codec and
advertisement cycler (src/relay-fw).  Bytes are modelled as `Nat` values
kept below 256 by the masking the C code itself performs; fixed-size C
buffers (`uint8_t[n]`) are modelled as `List Nat` of length `n`.
-/

set_option maxRecDepth 4096

namespace RelayFw

/-- `BIN_DATA_LEN` from airtag.h: raw decoded payload is 38 bytes. -/
def BIN_DATA_LEN : Nat := 38

/-- `KEY_LEN` from airtag.h: NIST P-224 public key, 28 bytes. -/
def KEY_LEN : Nat := 28

/-- `ADDR_LEN` from airtag.h: BLE link layer address, 6 bytes. -/
def ADDR_LEN : Nat := 6

/-- `PAYLOAD_LEN` from airtag.h: BLE legacy advertisement payload, 31 bytes. -/
def PAYLOAD_LEN : Nat := 31

/-- `struct airtag_t` from airtag.h: a record as parsed from the signalling
server's JSON.  `data` models the NUL-terminated `char data[DATA_LEN]`
base64 string. -/
structure airtag_t where
  id : Nat
  data : String
  valid : Bool
  deriving Repr, DecidableEq, Inhabited

/-- `success_e` from airtag.h. -/
inductive success_e where
  | SUCCESS
  | FAILURE
  deriving Repr, DecidableEq, Inhabited

/-- Value of one base64 alphabet character (`A`-`Z`, `a`-`z`, `0`-`9`,
`+`, `/`); `none` for anything outside the alphabet.  Models the
`base64_dec_map` lookup of the external mbedtls base64 library. -/
def b64Val (c : Char) : Option Nat :=
  if 'A' ≤ c ∧ c ≤ 'Z' then some (c.toNat - 65)
  else if 'a' ≤ c ∧ c ≤ 'z' then some (c.toNat - 71)
  else if '0' ≤ c ∧ c ≤ '9' then some (c.toNat + 4)
  else if c = '+' then some 62
  else if c = '/' then some 63
  else none

/-- Decode a base64 character stream, four characters at a time; `=` padding
is accepted only in the final four-character group (at most two, at the
end).  Any character outside the alphabet, or a length that is not a
multiple of four, is an error (`none`).  Models the decoding loop of the
external mbedtls base64 library (spec section 2: "Base64 Decoder (external
collaborator/library call)"). -/
def b64DecodeGroups : List Char → Option (List Nat)
  | [] => some []
  | a :: b :: c :: d :: rest =>
    match b64Val a, b64Val b with
    | some va, some vb =>
      if c = '=' then
        if d = '=' ∧ rest = [] then
          some [((va <<< 2) ||| (vb >>> 4))]
        else none
      else
        match b64Val c with
        | some vc =>
          if d = '=' then
            if rest = [] then
              some [((va <<< 2) ||| (vb >>> 4)),
                    (((vb &&& 0xF) <<< 4) ||| (vc >>> 2))]
            else none
          else
            match b64Val d with
            | some vd =>
              (b64DecodeGroups rest).map fun tail =>
                ((va <<< 2) ||| (vb >>> 4)) ::
                (((vb &&& 0xF) <<< 4) ||| (vc >>> 2)) ::
                ((((vc &&& 0x3) <<< 6) ||| vd)) :: tail
            | none => none
        | none => none
    | _, _ => none
  | _ => none

/-- Model of the external library call `mbedtls_base64_decode(dst, dlen,
&written, src, strlen(src))`: `none` when the input is not valid base64
(MBEDTLS_ERR_BASE64_INVALID_CHARACTER) or when the decoded output would
exceed the destination buffer of `dlen` bytes
(MBEDTLS_ERR_BASE64_BUFFER_TOO_SMALL); otherwise the decoded bytes, whose
count may be anything up to `dlen`. -/
def mbedtls_base64_decode (dlen : Nat) (src : List Char) : Option (List Nat) :=
  match b64DecodeGroups src with
  | some bs => if bs.length ≤ dlen then some bs else none
  | none => none

/-- The `uint8_t bin_data[BIN_DATA_LEN] = {0}` buffer of `airtag_to_key`
after the decoder has written `bs` into its front: the decoded bytes
followed by the untouched zero initialisation. -/
def binDataOf (bs : List Nat) : List Nat :=
  bs ++ List.replicate (BIN_DATA_LEN - bs.length) 0

/-- The key-layout block of `airtag_to_key` (airtag.c lines 55-62):
`key[0] = ((bin_data[35] << 6) & 0xC0) | (bin_data[5] & 0x3F)`;
`key[i] = bin_data[5 - i]` for `1 <= i < 6`;
`key[i] = bin_data[i + 7]` for `6 <= i < KEY_LEN`. -/
def keyOf (bin : List Nat) : List Nat :=
  List.ofFn fun i : Fin KEY_LEN =>
    if i.val = 0 then
      ((bin.getD 35 0 <<< 6) &&& 0xC0) ||| (bin.getD 5 0 &&& 0x3F)
    else if i.val < 6 then
      bin.getD (5 - i.val) 0
    else
      bin.getD (i.val + 7) 0

/-- `airtag_to_key` from airtag.c: base64-decode `airtag->data` into the
zero-initialised 38-byte `bin_data` buffer, returning `FAILURE` (with the
caller's key buffer untouched) when the decode errs, else `SUCCESS` with
the key built by the fixed byte permutation / bit merge.  The caller's key
buffer is passed in and returned, mirroring the C out-parameter. -/
def airtag_to_key (airtag : airtag_t) (key : List Nat) :
    success_e × List Nat :=
  match mbedtls_base64_decode BIN_DATA_LEN airtag.data.toList with
  | none => (success_e.FAILURE, key)
  | some bs => (success_e.SUCCESS, keyOf (binDataOf bs))

/-- `key_to_payload` from airtag.c: the fixed 7-byte header
`1E FF 4C 00 12 19 10`, then `payload[i + 7] = key[i + 6]` for `i < 22`,
then `payload[29] = (key[0] >> 6) & 0b11` and `payload[30] = 0x00`. -/
def key_to_payload (key : List Nat) : List Nat :=
  [0x1e, 0xff, 0x4c, 0x00, 0x12, 0x19, 0x10]
  ++ (List.ofFn fun i : Fin 22 => key.getD (i.val + 6) 0)
  ++ [(key.getD 0 0 >>> 6) &&& 0b11, 0x00]

/-- `key_to_addr` from airtag.c: `addr[i] = key[i]` for `i < ADDR_LEN`,
then `addr[0] |= 0b11000000`. -/
def key_to_addr (key : List Nat) : List Nat :=
  let addr := List.ofFn fun i : Fin ADDR_LEN => key.getD i.val 0
  addr.set 0 (addr.getD 0 0 ||| 0b11000000)

/-- `airtag_to_ble_advertisement` from airtag.c: run `airtag_to_key` on a
zero-initialised local key buffer; on failure return it with both caller
buffers untouched; on success overwrite the caller's payload and address
buffers via `key_to_payload` / `key_to_addr`. -/
def airtag_to_ble_advertisement (airtag : airtag_t)
    (ble_adv_addr ble_adv_body : List Nat) :
    success_e × List Nat × List Nat :=
  match airtag_to_key airtag (List.replicate KEY_LEN 0) with
  | (success_e.FAILURE, _) => (success_e.FAILURE, ble_adv_addr, ble_adv_body)
  | (success_e.SUCCESS, key) =>
      (success_e.SUCCESS, key_to_addr key, key_to_payload key)

/-- The four asynchronous GAP radio commands the cycler issues
(main.c lines 327, 329, 334, 341). -/
inductive RadioCmd where
  | setAddr (a : List Nat)
  | setPayload (p : List Nat)
  | startAdv
  | stopAdv
  deriving Repr, DecidableEq

/-- Observable actions of one iteration of `ble_adv_task`'s loop:
a radio command, a blocking wait on `ble_sem` for the previous command's
completion event, the advertisement-duration dwell delay, or the
1000 ms idle delay taken when no tags are available. -/
inductive Action where
  | cmd (c : RadioCmd)
  | waitComplete
  | dwell
  | delayIdle
  deriving Repr, DecidableEq

/-- One iteration of the `for (;;)` loop of `ble_adv_task` (main.c lines
298-343), as a function from the tag store (the shared `airtag_list` with
`airtag_count = store.length`, held fixed for the iteration) and the
current `index` to the new `index` and the trace of observable actions:
- `airtag_count <= 0`: delay and continue, index untouched;
- extraction failure: log, release the mutex and `continue` — no radio
  command is issued and the `index = (index + 1) % airtag_count` statement
  is never reached;
- success: advance `index` modulo the count, then set address, set
  payload, start advertising, dwell, stop advertising, waiting on the
  completion semaphore after each command. -/
def ble_adv_step (store : List airtag_t) (index : Nat) :
    Nat × List Action :=
  if store.length = 0 then
    (index, [Action.delayIdle])
  else
    match airtag_to_ble_advertisement (store.getD index default)
        (List.replicate ADDR_LEN 0) (List.replicate PAYLOAD_LEN 0) with
    | (success_e.FAILURE, _, _) => (index, [])
    | (success_e.SUCCESS, addr, body) =>
        ((index + 1) % store.length,
         [Action.cmd (RadioCmd.setAddr addr), Action.waitComplete,
          Action.cmd (RadioCmd.setPayload body), Action.waitComplete,
          Action.cmd RadioCmd.startAdv, Action.waitComplete,
          Action.dwell,
          Action.cmd RadioCmd.stopAdv, Action.waitComplete])

/-- Values of `index` reachable by the cycler: it starts at `0`
(`int index = 0;`, main.c line 295) and evolves by loop iterations over a
tag store. -/
inductive Reachable (store : List airtag_t) : Nat → Prop where
  | init : Reachable store 0
  | step {i : Nat} : Reachable store i → Reachable store (ble_adv_step store i).1

/-- Reconstruction map for the losslessness claim, built from the claim's
words: key byte 0 from `(payload[29] & 0x03) << 6` combined with
`addr[0] & 0x3F`, key bytes 1-5 from the address, key bytes 6-27 from the
payload. -/
def key_from_adv (addr payload : List Nat) : List Nat :=
  List.ofFn fun i : Fin KEY_LEN =>
    if i.val = 0 then
      ((payload.getD 29 0 &&& 0x03) <<< 6) ||| (addr.getD 0 0 &&& 0x3F)
    else if i.val < 6 then
      addr.getD i.val 0
    else
      payload.getD (i.val + 1) 0

/-- A record whose payload is the base64 encoding of 38 zero bytes
(52 characters, the maximum `DATA_LEN` allows). -/
def goodTag : airtag_t :=
  { id := 1, data := String.mk (List.replicate 48 'A') ++ "AAA=", valid := true }

/-- A record whose payload contains a character outside the base64
alphabet, so decoding fails. -/
def badTag : airtag_t := { id := 2, data := "!", valid := true }

/-- A record whose payload is valid base64 but decodes to only 3 bytes,
far short of the 38 the layout expects. -/
def shortTag : airtag_t := { id := 7, data := "AAAA", valid := true }

/-! ### Helper lemmas -/

lemma or_192_and_192 (x : Nat) : (x ||| 192) &&& 192 = 192 := by
  apply Nat.eq_of_testBit_eq
  intro i
  simp only [Nat.testBit_and, Nat.testBit_or]
  cases h : Nat.testBit 192 i <;> simp [h]

lemma byte0_roundtrip : ∀ x : Nat, x < 256 →
    ((((x >>> 6) &&& 3) &&& 3) <<< 6) ||| ((x ||| 192) &&& 63) = x := by
  decide

lemma decode_length_le (dlen : Nat) (src : List Char) (bs : List Nat)
    (h : mbedtls_base64_decode dlen src = some bs) : bs.length ≤ dlen := by
  unfold mbedtls_base64_decode at h
  rcases hg : b64DecodeGroups src with _ | cs
  · rw [hg] at h
    exact absurd h (by simp)
  · rw [hg] at h
    dsimp only at h
    split at h
    · injection h with h
      subst h
      assumption
    · exact absurd h (by simp)

lemma ble_adv_step_length_zero {store : List airtag_t} (h : store.length = 0)
    (i : Nat) : ble_adv_step store i = (i, [Action.delayIdle]) := by
  unfold ble_adv_step
  rw [if_pos h]

lemma ble_adv_step_index {store : List airtag_t} (h : store.length ≠ 0)
    (i : Nat) : (ble_adv_step store i).1 = i ∨
      (ble_adv_step store i).1 = (i + 1) % store.length := by
  unfold ble_adv_step
  rw [if_neg h]
  rcases hA : airtag_to_ble_advertisement (store.getD i default)
      (List.replicate ADDR_LEN 0) (List.replicate PAYLOAD_LEN 0) with ⟨s, a, b⟩
  cases s
  · right; rfl
  · left; rfl

lemma reachable_lt {store : List airtag_t} {i : Nat}
    (h : Reachable store i) (hpos : 0 < store.length) : i < store.length := by
  induction h with
  | init => exact hpos
  | step _ ih =>
      rcases ble_adv_step_index (Nat.pos_iff_ne_zero.mp hpos) _ with h1 | h1
      · rw [h1]; exact ih
      · rw [h1]; exact Nat.mod_lt _ hpos

/-! ### Claim theorems -/

/-- C1: for every record whose base64 payload decodes to exactly 38 raw
bytes, `airtag_to_key` succeeds and produces the 28-byte key with
`key[0] = ((raw[35] << 6) & 0xC0) | (raw[5] & 0x3F)`, `key[i] = raw[5 - i]`
for `1 <= i < 6`, and `key[i] = raw[i + 7]` for `6 <= i < 28`; no other
transformation is applied (the length and all 28 bytes are pinned). -/
theorem extract_key_layout (a : airtag_t) (kbuf raw : List Nat)
    (hdec : mbedtls_base64_decode BIN_DATA_LEN a.data.toList = some raw)
    (hlen : raw.length = 38) :
    (airtag_to_key a kbuf).1 = success_e.SUCCESS ∧
    (airtag_to_key a kbuf).2.length = 28 ∧
    (airtag_to_key a kbuf).2.getD 0 0
      = ((raw.getD 35 0 <<< 6) &&& 0xC0) ||| (raw.getD 5 0 &&& 0x3F) ∧
    (∀ i, 1 ≤ i → i < 6 → (airtag_to_key a kbuf).2.getD i 0 = raw.getD (5 - i) 0) ∧
    (∀ i, 6 ≤ i → i < 28 → (airtag_to_key a kbuf).2.getD i 0 = raw.getD (i + 7) 0) := by
  have hbin : binDataOf raw = raw := by
    unfold binDataOf BIN_DATA_LEN
    rw [hlen]
    simp
  have hk : airtag_to_key a kbuf = (success_e.SUCCESS, keyOf raw) := by
    unfold airtag_to_key
    rw [hdec]
    dsimp only
    rw [hbin]
  rw [hk]
  refine ⟨rfl, rfl, rfl, ?_, ?_⟩
  · intro i h1 h2
    interval_cases i <;> rfl
  · intro i h1 h2
    interval_cases i <;> rfl

/-- Witness for C1 at a record whose 52-character payload decodes to 38
zero bytes: extraction succeeds and the pinned bytes evaluate. -/
theorem extract_key_layout_witness :
    (airtag_to_key goodTag (List.replicate KEY_LEN 0)).1 = success_e.SUCCESS ∧
    (airtag_to_key goodTag (List.replicate KEY_LEN 0)).2.getD 0 0
      = (((List.replicate 38 0).getD 35 0 <<< 6) &&& 0xC0)
        ||| ((List.replicate 38 0).getD 5 0 &&& 0x3F) ∧
    (airtag_to_key goodTag (List.replicate KEY_LEN 0)).2.getD 1 0
      = (List.replicate 38 0).getD 4 0 ∧
    (airtag_to_key goodTag (List.replicate KEY_LEN 0)).2.getD 27 0
      = (List.replicate 38 0).getD 34 0 := by
  have h := extract_key_layout goodTag (List.replicate KEY_LEN 0)
    (List.replicate 38 0) (by decide) (by decide)
  exact ⟨h.1, h.2.2.1, h.2.2.2.1 1 (by decide) (by decide),
    h.2.2.2.2 27 (by decide) (by decide)⟩

/-- C2 counterexample: the payload "AAAA" is valid base64 decoding to 3
bytes — fewer than 38 — yet `airtag_to_key` returns SUCCESS (building a
key out of the zero-padded buffer), not FAILURE as the claim requires. -/
theorem short_payload_accepted :
    mbedtls_base64_decode BIN_DATA_LEN shortTag.data.toList = some [0, 0, 0] ∧
    (airtag_to_key shortTag (List.replicate KEY_LEN 0)).1 = success_e.SUCCESS := by
  decide

/-- C2 (amended): `airtag_to_key` returns FAILURE exactly when the base64
decode itself fails — a character outside the base64 alphabet, malformed
padding/grouping, or a decoded length exceeding the 38-byte buffer — and
then the caller's key buffer is untouched; whenever the decode succeeds
(length at most 38, possibly fewer) it returns SUCCESS with the key built
from the decoded bytes zero-padded to 38. -/
theorem extract_key_error_exact (a : airtag_t) (kbuf : List Nat) :
    ((airtag_to_key a kbuf).1 = success_e.FAILURE ↔
      mbedtls_base64_decode BIN_DATA_LEN a.data.toList = none) ∧
    ((airtag_to_key a kbuf).1 = success_e.FAILURE →
      (airtag_to_key a kbuf).2 = kbuf) ∧
    (∀ bs, mbedtls_base64_decode BIN_DATA_LEN a.data.toList = some bs →
      bs.length ≤ BIN_DATA_LEN ∧
      airtag_to_key a kbuf = (success_e.SUCCESS, keyOf (binDataOf bs))) := by
  unfold airtag_to_key
  rcases hdec : mbedtls_base64_decode BIN_DATA_LEN a.data.toList with _ | bs
  · refine ⟨by simp, fun _ => rfl, ?_⟩
    intro bs2 h2
    exact absurd h2 (by simp)
  · refine ⟨by simp, by simp, ?_⟩
    intro bs2 h2
    injection h2 with h2
    subst h2
    exact ⟨decode_length_le _ _ _ hdec, rfl⟩

/-- Witness for C2 (amended) at the short-payload record: decoding "AAAA"
yields 3 bytes and extraction succeeds with the zero-padded key. -/
theorem extract_key_error_exact_witness :
    ([0, 0, 0] : List Nat).length ≤ BIN_DATA_LEN ∧
    airtag_to_key shortTag (List.replicate KEY_LEN 0)
      = (success_e.SUCCESS, keyOf (binDataOf [0, 0, 0])) :=
  (extract_key_error_exact shortTag (List.replicate KEY_LEN 0)).2.2
    [0, 0, 0] (by decide)

/-- C4: for every 28-byte key, `key_to_payload` produces a 31-byte payload
whose bytes 0-6 are the fixed header `1E FF 4C 00 12 19 10`, whose bytes
7-28 equal `key[6..28]`, whose byte 29 equals `(key[0] >> 6) & 0x03`, and
whose byte 30 equals `0x00`. -/
theorem key_to_payload_layout (key : List Nat) (_hlen : key.length = KEY_LEN) :
    (key_to_payload key).length = PAYLOAD_LEN ∧
    (key_to_payload key).take 7 = [0x1e, 0xff, 0x4c, 0x00, 0x12, 0x19, 0x10] ∧
    (∀ j, j < 22 → (key_to_payload key).getD (j + 7) 0 = key.getD (j + 6) 0) ∧
    (key_to_payload key).getD 29 0 = (key.getD 0 0 >>> 6) &&& 0x03 ∧
    (key_to_payload key).getD 30 0 = 0 := by
  refine ⟨rfl, rfl, ?_, rfl, rfl⟩
  intro j hj
  interval_cases j <;> rfl

/-- Witness for C4 at the all-`0xFF` key: the trailer byte is `0x03`, the
header and a copied key byte evaluate as stated. -/
theorem key_to_payload_layout_witness :
    (key_to_payload (List.replicate KEY_LEN 255)).length = PAYLOAD_LEN ∧
    (key_to_payload (List.replicate KEY_LEN 255)).getD 29 0
      = ((List.replicate KEY_LEN 255).getD 0 0 >>> 6) &&& 0x03 ∧
    (key_to_payload (List.replicate KEY_LEN 255)).getD (2 + 7) 0
      = (List.replicate KEY_LEN 255).getD (2 + 6) 0 := by
  have h := key_to_payload_layout (List.replicate KEY_LEN 255) (by decide)
  exact ⟨h.1, h.2.2.2.1, h.2.2.1 2 (by decide)⟩

/-- C5: for every 28-byte key, `key_to_addr` produces the 6-byte address
obtained by copying `key[0..6]` and setting the top two bits of byte 0;
in particular `addr[0] & 0xC0 = 0xC0` always holds. -/
theorem key_to_addr_layout (key : List Nat) (_hlen : key.length = KEY_LEN) :
    (key_to_addr key).length = ADDR_LEN ∧
    (key_to_addr key).getD 0 0 = (key.getD 0 0 ||| 0xC0) ∧
    (∀ i, 1 ≤ i → i < 6 → (key_to_addr key).getD i 0 = key.getD i 0) ∧
    (key_to_addr key).getD 0 0 &&& 0xC0 = 0xC0 := by
  refine ⟨rfl, rfl, ?_, ?_⟩
  · intro i h1 h2
    interval_cases i <;> rfl
  · show (key.getD 0 0 ||| 192) &&& 192 = 192
    exact or_192_and_192 _

/-- Witness for C5 at the all-zero key: the static-random marker is set
and byte 3 is copied through. -/
theorem key_to_addr_layout_witness :
    (key_to_addr (List.replicate KEY_LEN 0)).getD 0 0 &&& 0xC0 = 0xC0 ∧
    (key_to_addr (List.replicate KEY_LEN 0)).getD 3 0
      = (List.replicate KEY_LEN 0).getD 3 0 := by
  have h := key_to_addr_layout (List.replicate KEY_LEN 0) (by decide)
  exact ⟨h.2.2.2, h.2.2.1 3 (by decide) (by decide)⟩

lemma key_from_adv_roundtrip (key : List Nat) (hlen : key.length = KEY_LEN)
    (hbyte : ∀ b ∈ key, b < 256) :
    key_from_adv (key_to_addr key) (key_to_payload key) = key := by
  have h0 : key.getD 0 0 < 256 := by
    have hpos : 0 < key.length := by rw [hlen]; decide
    rw [List.getD_eq_getElem key 0 hpos]
    exact hbyte _ (List.getElem_mem hpos)
  have hlen28 : key.length = 28 := hlen
  apply List.ext_getElem (by simp [key_from_adv, List.length_ofFn, hlen28, KEY_LEN])
  intro i h1 h2
  have hi : i < 28 := by rw [← hlen28]; exact h2
  rw [← List.getD_eq_getElem _ 0 h1, ← List.getD_eq_getElem _ 0 h2]
  interval_cases i
  case _ => exact byte0_roundtrip _ h0
  all_goals rfl

/-- C9: the address/payload encoding is lossless — `key_from_adv`
recovers the full 28-byte key from `(key_to_addr key, key_to_payload key)`
for every 28-byte key, and consequently the map from keys to
(address, payload) pairs is injective. -/
theorem adv_encoding_lossless (key : List Nat) (hlen : key.length = KEY_LEN)
    (hbyte : ∀ b ∈ key, b < 256) :
    key_from_adv (key_to_addr key) (key_to_payload key) = key ∧
    (∀ key2 : List Nat, key2.length = KEY_LEN → (∀ b ∈ key2, b < 256) →
      key_to_addr key = key_to_addr key2 →
      key_to_payload key = key_to_payload key2 → key = key2) := by
  refine ⟨key_from_adv_roundtrip key hlen hbyte, ?_⟩
  intro key2 hl2 hb2 ha hp
  rw [← key_from_adv_roundtrip key hlen hbyte,
    ← key_from_adv_roundtrip key2 hl2 hb2, ha, hp]

/-- Witness for C9 at the key whose bytes are `0..27`: the reconstruction
returns the key exactly. -/
theorem adv_encoding_lossless_witness :
    key_from_adv (key_to_addr (List.range 28)) (key_to_payload (List.range 28))
      = List.range 28 :=
  (adv_encoding_lossless (List.range 28) (by decide) (by decide)).1

/-- C8: key extraction and address/payload building are pure functions of
the record's payload bytes alone — two records with identical `data`
strings (regardless of `id`, `valid`, call order or any other state) yield
byte-identical extraction and advertisement results. -/
theorem codec_pure_in_payload (a b : airtag_t) (kbuf addr body : List Nat)
    (h : a.data = b.data) :
    airtag_to_key a kbuf = airtag_to_key b kbuf ∧
    airtag_to_ble_advertisement a addr body
      = airtag_to_ble_advertisement b addr body := by
  have hk : ∀ k : List Nat, airtag_to_key a k = airtag_to_key b k := by
    intro k
    unfold airtag_to_key
    rw [h]
  refine ⟨hk kbuf, ?_⟩
  unfold airtag_to_ble_advertisement
  rw [hk]

/-- Witness for C8: two records sharing the payload string "AAAA" but
differing in `id` and `valid` produce identical outputs. -/
theorem codec_pure_in_payload_witness :
    airtag_to_key { id := 1, data := "AAAA", valid := true }
        (List.replicate KEY_LEN 0)
      = airtag_to_key { id := 2, data := "AAAA", valid := false }
        (List.replicate KEY_LEN 0) ∧
    airtag_to_ble_advertisement { id := 1, data := "AAAA", valid := true }
        (List.replicate ADDR_LEN 0) (List.replicate PAYLOAD_LEN 0)
      = airtag_to_ble_advertisement { id := 2, data := "AAAA", valid := false }
        (List.replicate ADDR_LEN 0) (List.replicate PAYLOAD_LEN 0) :=
  codec_pure_in_payload _ _ _ _ _ rfl

/-- C10: `airtag_to_ble_advertisement` fails exactly when `airtag_to_key`
fails on the same record (whatever key buffer the latter is given), and on
failure it returns before building anything, leaving both caller-supplied
output buffers exactly as they were passed in. -/
theorem adv_failure_propagation (a : airtag_t) (addr body kbuf : List Nat) :
    (airtag_to_ble_advertisement a addr body).1 = (airtag_to_key a kbuf).1 ∧
    ((airtag_to_ble_advertisement a addr body).1 = success_e.FAILURE →
      (airtag_to_ble_advertisement a addr body).2 = (addr, body)) := by
  unfold airtag_to_ble_advertisement airtag_to_key
  rcases hdec : mbedtls_base64_decode BIN_DATA_LEN a.data.toList with _ | bs
  · exact ⟨rfl, fun _ => rfl⟩
  · exact ⟨rfl, fun hcontra => absurd hcontra (by simp)⟩

/-- Witness for C10 at the malformed record: the advertisement call fails
like key extraction does, and both buffers come back unchanged. -/
theorem adv_failure_propagation_witness :
    (airtag_to_ble_advertisement badTag (List.replicate ADDR_LEN 0)
        (List.replicate PAYLOAD_LEN 0)).1
      = (airtag_to_key badTag (List.replicate KEY_LEN 0)).1 ∧
    (airtag_to_ble_advertisement badTag (List.replicate ADDR_LEN 0)
        (List.replicate PAYLOAD_LEN 0)).2
      = (List.replicate ADDR_LEN 0, List.replicate PAYLOAD_LEN 0) := by
  have h := adv_failure_propagation badTag (List.replicate ADDR_LEN 0)
    (List.replicate PAYLOAD_LEN 0) (List.replicate KEY_LEN 0)
  exact ⟨h.1, h.2 (by decide)⟩

/-- C6: over a fixed tag store, in every state the cycler can reach from
its start (`index = 0`), the rotation pointer stays within bounds whenever
the count is positive; an iteration with an empty store leaves the index
untouched; and a successful cycle advances it to `(index + 1) % count`. -/
theorem cycler_index_invariant (store : List airtag_t) (i : Nat)
    (h : Reachable store i) :
    (0 < store.length → i < store.length) ∧
    (store.length = 0 → (ble_adv_step store i).1 = i) ∧
    (0 < store.length →
      (airtag_to_ble_advertisement (store.getD i default)
        (List.replicate ADDR_LEN 0) (List.replicate PAYLOAD_LEN 0)).1
        = success_e.SUCCESS →
      (ble_adv_step store i).1 = (i + 1) % store.length) := by
  refine ⟨fun hpos => reachable_lt h hpos,
    fun h0 => by rw [ble_adv_step_length_zero h0], ?_⟩
  intro hpos hsucc
  unfold ble_adv_step
  rw [if_neg (Nat.pos_iff_ne_zero.mp hpos)]
  rcases hA : airtag_to_ble_advertisement (store.getD i default)
      (List.replicate ADDR_LEN 0) (List.replicate PAYLOAD_LEN 0) with ⟨s, addr, body⟩
  rw [hA] at hsucc
  cases s
  · rfl
  · exact absurd hsucc (by simp)

/-- Witness for C6 at a one-record store with a well-formed payload,
starting from the initial index: the index is in bounds and a successful
cycle advances it modulo the count. -/
theorem cycler_index_invariant_witness :
    ((0 : Nat) < ([goodTag] : List airtag_t).length) ∧
    (ble_adv_step [goodTag] 0).1 = (0 + 1) % ([goodTag] : List airtag_t).length := by
  have h := cycler_index_invariant [goodTag] 0 Reachable.init
  exact ⟨h.1 (by decide), h.2.2 (by decide) (by decide)⟩

/-- C7: the trace of one loop iteration is always one of: no action at all
(extraction failure), the lone idle delay (empty store), or the strictly
sequential sequence set-address, wait-for-completion, set-payload,
wait-for-completion, start-advertising, wait-for-completion, dwell,
stop-advertising, wait-for-completion — so a radio command is never issued
before the previous command's completion signal arrives, in exactly the
order address, payload, start, dwell, stop. -/
theorem radio_commands_sequential (store : List airtag_t) (i : Nat) :
    (ble_adv_step store i).2 = [] ∨
    (ble_adv_step store i).2 = [Action.delayIdle] ∨
    ∃ a p, (ble_adv_step store i).2 =
      [Action.cmd (RadioCmd.setAddr a), Action.waitComplete,
       Action.cmd (RadioCmd.setPayload p), Action.waitComplete,
       Action.cmd RadioCmd.startAdv, Action.waitComplete,
       Action.dwell,
       Action.cmd RadioCmd.stopAdv, Action.waitComplete] := by
  unfold ble_adv_step
  by_cases h : store.length = 0
  · rw [if_pos h]
    right; left; rfl
  · rw [if_neg h]
    rcases hA : airtag_to_ble_advertisement (store.getD i default)
        (List.replicate ADDR_LEN 0) (List.replicate PAYLOAD_LEN 0) with ⟨s, addr, body⟩
    cases s
    · right; right; exact ⟨addr, body, rfl⟩
    · left; rfl

/-- C3 (code bug): at a store whose first record has a malformed payload,
the cycler iteration issues no radio command — but it also leaves the
index at 0 instead of advancing it to `(0 + 1) % 2 = 1`, so the broken
record is retried forever and rotation stalls, contrary to the claim that
`CycleIndex` is still advanced. -/
theorem cycler_stalls_on_decode_error :
    (airtag_to_ble_advertisement badTag (List.replicate ADDR_LEN 0)
      (List.replicate PAYLOAD_LEN 0)).1 = success_e.FAILURE ∧
    ble_adv_step [badTag, goodTag] 0 = (0, []) ∧
    (0 + 1) % ([badTag, goodTag] : List airtag_t).length = 1 := by
  decide

end RelayFw
